import Mathlib

/-!
Verification development for the API-call analysis and alert demo service
(`src/nodejs/server.js`): a shallow embedding of its logging, query
interception, latency injection, route handlers and startup readiness gate,
together with theorems settling the specification claims about them.

Machine numbers are modelled as `ℚ`/`ℤ`/`ℕ`; JavaScript `NaN` is modelled
explicitly by `JSNum.nan`; thrown JavaScript exceptions are modelled by
`Except JsErr`.
-/

/-- A JavaScript exception value: `new Error(msg)`, a `ReferenceError`
raised by evaluating an identifier that is not in scope, or a `TypeError`
raised by a property access on `undefined`. -/
inductive JsErr
  | error (msg : String)
  | referenceError (name : String)
  | typeError (msg : String)
deriving DecidableEq, Repr

/-- The message an exception carries (`err.message`). -/
def JsErr.msg : JsErr → String
  | .error m => m
  | .referenceError n => n ++ " is not defined"
  | .typeError m => m

/-- A JavaScript number that is either an actual value or `NaN`
(produced by `parseInt` / `parseFloat` on non-numeric text). -/
inductive JSNum
  | nan
  | val (q : ℚ)
deriving DecidableEq, Repr

/-- Result object of a `pg` query: `rows` (each row a list of
column-name/value pairs) and `rowCount`. -/
structure QueryResult where
  rows : List (List (String × String))
  rowCount : ℕ
deriving DecidableEq, Repr

/-! ### Character and number parsing (JS `parseInt` / `parseFloat`) -/

/-- Digits-and-dot character class, the JS regex class `[\d.]`. -/
def isDigitOrDot (c : Char) : Bool := c.isDigit || c == '.'

/-- What the JS regex metacharacter `.` matches (any character except a
line terminator; the strings in this development contain no `\n`). -/
def jsDotMatches (c : Char) : Bool := c != '\n'

/-- Value of a decimal digit string, most significant first. -/
def digitsToNat (ds : List Char) : ℕ :=
  ds.foldl (fun acc c => acc * 10 + (c.toNat - 48)) 0

/-- Parse a decimal literal `digits[.digits]` from the front of a character
list, returning its value as a mantissa/scale pair (the value is
`mantissa / 10 ^ scale`) and the rest; `none` when no digit is present
(JS `NaN`).  Accepts `123`, `123.`, `.5`; rejects a bare `.`.  The value
stays in `ℕ` so that concrete parses evaluate inside the kernel. -/
def parseDecimalChars (cs : List Char) : Option ((ℕ × ℕ) × List Char) :=
  let intDigits := cs.takeWhile Char.isDigit
  let rest := cs.drop intDigits.length
  match rest with
  | '.' :: rest2 =>
    let fracDigits := rest2.takeWhile Char.isDigit
    if intDigits.isEmpty && fracDigits.isEmpty then none
    else some ((digitsToNat intDigits * 10 ^ fracDigits.length + digitsToNat fracDigits,
        fracDigits.length),
      rest2.drop fracDigits.length)
  | _ => if intDigits.isEmpty then none else some ((digitsToNat intDigits, 0), rest)

/-- The rational value of a mantissa/scale pair. -/
def decToRat (p : ℕ × ℕ) : ℚ := (p.1 : ℚ) / 10 ^ p.2

/-- JS `parseFloat`, as a mantissa/scale pair with a negation flag: skip
leading whitespace, optional sign, then a decimal literal; `none` is
`NaN`.  The exponent form is not modelled; the inputs it receives in this
program are captures of the class `[\d.]+`, which never contain one. -/
def jsParseFloatParts (s : String) : Option (Bool × (ℕ × ℕ)) :=
  let cs := s.data.dropWhile Char.isWhitespace
  match cs with
  | '-' :: rest => (parseDecimalChars rest).map (fun p => (true, p.1))
  | '+' :: rest => (parseDecimalChars rest).map (fun p => (false, p.1))
  | _ => (parseDecimalChars cs).map (fun p => (false, p.1))

/-- `parseFloat` packaged as a `JSNum`. -/
def jsParseFloatNum (s : String) : JSNum :=
  match jsParseFloatParts s with
  | some (neg, p) => .val (if neg then -(decToRat p) else decToRat p)
  | none => .nan

/-- Hexadecimal digit class, for JS `parseInt`'s `0x` auto-radix. -/
def isHexDigitChar (c : Char) : Bool :=
  c.isDigit || ('a' ≤ c && c ≤ 'f') || ('A' ≤ c && c ≤ 'F')

/-- Value of one hexadecimal digit. -/
def hexDigitVal (c : Char) : ℕ :=
  if c.isDigit then c.toNat - 48
  else if 'a' ≤ c && c ≤ 'f' then c.toNat - 87
  else c.toNat - 55

/-- Value of a hexadecimal digit string, most significant first. -/
def hexToNat (ds : List Char) : ℕ :=
  ds.foldl (fun acc c => acc * 16 + hexDigitVal c) 0

/-- JS `parseInt(s)` with no radix argument: skip whitespace, optional
sign, auto-detect a `0x`/`0X` prefix (radix 16), otherwise read the
longest prefix of decimal digits; `NaN` when no digit follows. -/
def jsParseIntCore (cs : List Char) : JSNum :=
  match cs with
  | '0' :: 'x' :: rest =>
    let ds := rest.takeWhile isHexDigitChar
    if ds.isEmpty then .nan else .val (hexToNat ds)
  | '0' :: 'X' :: rest =>
    let ds := rest.takeWhile isHexDigitChar
    if ds.isEmpty then .nan else .val (hexToNat ds)
  | _ =>
    let ds := cs.takeWhile Char.isDigit
    if ds.isEmpty then .nan else .val (digitsToNat ds)

/-- JS `parseInt(s)` (sign and whitespace handling). -/
def jsParseInt (s : String) : JSNum :=
  let cs := s.data.dropWhile Char.isWhitespace
  match cs with
  | '-' :: rest =>
    match jsParseIntCore rest with
    | .val q => .val (-q)
    | .nan => .nan
  | '+' :: rest => jsParseIntCore rest
  | _ => jsParseIntCore cs

/-! ### The cost-extraction regex of the query wrapper

`server.js` line 93: `plan.match(/cost=[\d.]+..([\d.]+)/)`.  The two dots
in the middle are the unescaped metacharacter `.`.  The model below
implements exactly the JS backtracking semantics of this one pattern:
leftmost starting position; the quantifier `[\d.]+` is greedy and gives
back one character at a time; each `.` matches any non-newline character;
the capture `([\d.]+)` is greedy and nothing follows it. -/

/-- Does `p` occur literally at the front of `cs`? -/
def startsWithChars : List Char → List Char → Bool
  | [], _ => true
  | _ :: _, [] => false
  | p :: ps, c :: cs => p == c && startsWithChars ps cs

/-- Attempt the pattern tail with the first `[\d.]+` consuming exactly
`aLen` characters: then `.` `.` must each match one character and the
capture `([\d.]+)` must be non-empty (greedy, so maximal). -/
def tryCostTailWithA (cs : List Char) (aLen : ℕ) : Option (List Char) :=
  match cs.drop aLen with
  | c1 :: c2 :: rest2 =>
    if jsDotMatches c1 && jsDotMatches c2 then
      let b := rest2.takeWhile isDigitOrDot
      if b.isEmpty then none else some b
    else none
  | _ => none

/-- Greedy backtracking over the length of the first `[\d.]+`: try the
longest length first, then shorter ones down to 1. -/
def tryCostTailFrom : ℕ → List Char → Option (List Char)
  | 0, _ => none
  | n + 1, cs =>
    match tryCostTailWithA cs (n + 1) with
    | some b => some b
    | none => tryCostTailFrom n cs

/-- Attempt the whole pattern at this position: literal `cost=`, then the
backtracking tail on what follows. -/
def matchCostAt (cs : List Char) : Option (List Char) :=
  if startsWithChars "cost=".data cs then
    let rest := cs.drop 5
    tryCostTailFrom (rest.takeWhile isDigitOrDot).length rest
  else none

/-- Leftmost search: try the pattern at every position, first success
wins, as `String.prototype.match` does for a non-global regex. -/
def searchCost : List Char → Option (List Char)
  | [] => none
  | c :: rest =>
    match matchCostAt (c :: rest) with
    | some b => some b
    | none => searchCost rest

/-- `plan.match(/cost=[\d.]+..([\d.]+)/)`, returning the capture group. -/
def jsMatchCost (plan : String) : Option String :=
  (searchCost plan.data).map (fun l => String.mk l)

/-- The query cost the wrapper attaches (`server.js` lines 93–94):
`costMatch ? parseFloat(costMatch[1]) : 0`. -/
def queryCostOfPlan (plan : String) : JSNum :=
  match jsMatchCost plan with
  | some cap => jsParseFloatNum cap
  | none => .val 0

/-- Modelled from the spec: "extract the maximum cost figure reported".
A Postgres plan line reports `cost=<startup>..<total>`; the maximum cost
figure is the second (total) number.  This parser finds `cost=`, reads a
decimal number, requires the literal `..`, and returns the following
decimal number.  It exists only to be compared with `queryCostOfPlan`,
which embeds the source's regex. -/
def specMaxCostSearch : List Char → Option (ℕ × ℕ)
  | [] => none
  | c :: rest =>
    if startsWithChars "cost=".data (c :: rest) then
      match parseDecimalChars ((c :: rest).drop 5) with
      | some (_, '.' :: '.' :: rest2) =>
        match parseDecimalChars rest2 with
        | some (b, _) => some b
        | none => specMaxCostSearch rest
      | _ => specMaxCostSearch rest
    else specMaxCostSearch rest

/-- Modelled from the spec: the maximum cost figure of a plan string. -/
def specMaxCostFigure (plan : String) : Option ℚ :=
  (specMaxCostSearch plan.data).map decToRat

/-- A typical first line of `EXPLAIN` output for the program's
`SELECT * FROM users` query, used as a concrete evaluation input. -/
def examplePlan : String :=
  "Seq Scan on users  (cost=0.00..35.50 rows=2550 width=622)"

/-! ### Winston logger routing (`server.js` lines 25–40)

The logger has five transports: `logs/access.log` (level `info`),
`logs/error.log` (level `error`), `logs/db.log` (level `info`),
`logs/app.log` (level `info`) and the console (level `info`).  Winston
delivers each emitted entry to every transport whose configured level
threshold admits the entry's level (numerically, entry priority ≤
transport priority; `error` = 0, `info` = 2).  The `transport:` field the
handlers attach (for example `transport: 'logs/db.log'`) is ordinary
metadata handed to the formatter; winston does not interpret it. -/

/-- The two severity levels this program uses. -/
inductive LogLevel
  | info
  | error
deriving DecidableEq, Repr

/-- Winston's numeric priority of a level (`error` 0 < `info` 2). -/
def levelPriority : LogLevel → ℕ
  | .error => 0
  | .info => 2

/-- One configured winston transport: destination and level threshold. -/
structure LogTransport where
  dest : String
  threshold : LogLevel
deriving DecidableEq, Repr

/-- The transports configured in `winston.createLogger` (lines 33–39). -/
def transports : List LogTransport :=
  [⟨"logs/access.log", .info⟩,
   ⟨"logs/error.log", .error⟩,
   ⟨"logs/db.log", .info⟩,
   ⟨"logs/app.log", .info⟩,
   ⟨"console", .info⟩]

/-- One `logger.info`/`logger.error` call: level, message, and the
`transport:` metadata field when the caller attached one. -/
structure LogCall where
  level : LogLevel
  message : String
  transportField : Option String
deriving DecidableEq, Repr

/-- The destinations to which winston appends an emitted entry: every
transport whose threshold admits the entry's level.  The entry's
`transportField` metadata plays no part. -/
def routedDests (e : LogCall) : List String :=
  (transports.filter (fun t => levelPriority e.level ≤ levelPriority t.threshold)).map
    (fun t => t.dest)

/-- The db-sink emission of the query wrapper (lines 99–107): level
`info`, addressed to `logs/db.log` via the `transport` field. -/
def dbLogCall : LogCall :=
  ⟨.info, "Executed query: SELECT * FROM users", some "logs/db.log"⟩

/-! ### The query-interception wrapper, one invocation in detail
(`server.js` lines 86–119)

The wrapper installed over `pool.query` performs, for one invocation with
`(text, params)`: an `EXPLAIN` call through the captured original
capability, cost extraction from the first row's `QUERY PLAN` column, the
real call through the original capability, a db-sink log emission, and a
`req.queryComplexity` record; on any failure it emits an error-sink entry
tagged `QUERY_ERROR` and rethrows; its `finally` always restores
`pool.query`.  The original capability is a parameter
`orig : String → List JSNum → Except JsErr QueryResult`; wall-clock reads
are the parameters `tStart` (on entry) and `tEnd` (after the real call). -/

/-- Look a column up in a row object. -/
def lookupRow (row : List (String × String)) (key : String) : Option String :=
  (row.find? (fun kv => kv.1 == key)).map (fun kv => kv.2)

/-- `explainResult.rows[0]['QUERY PLAN'] || 'N/A'` given the first row:
a missing column gives `undefined`, and `undefined` as well as the empty
string are falsy, so both fall back to `'N/A'`. -/
def planOfRow (row : List (String × String)) : String :=
  match lookupRow row "QUERY PLAN" with
  | some v => if v = "" then "N/A" else v
  | none => "N/A"

/-- Observable steps of one wrapper invocation, in emission order. -/
inductive WEvent
  | estimationCall (text : String) (params : List JSNum)
  | realCall (text : String) (params : List JSNum)
  | dbLog (message : String) (queryTimeMs : ℤ) (queryCost : JSNum)
      (rowsReturned : ℕ) (paramsCount : ℕ)
  | errLog (message : String) (queryText : String) (errorCode : String)
deriving DecidableEq, Repr

/-- Outcome of one wrapper invocation: the value returned or exception
rethrown to the caller, the ordered event trace, the
`req.queryComplexity` entries written, and whether the `finally` block
restored `pool.query`. -/
structure WrapResult where
  result : Except JsErr QueryResult
  events : List WEvent
  complexity : List (String × (JSNum × ℤ))
  restored : Bool
deriving Repr

/-- One invocation of the instrumented `pool.query` (lines 86–119). -/
def instrumentedCall (orig : String → List JSNum → Except JsErr QueryResult)
    (tStart tEnd : ℤ) (text : String) (params : List JSNum) : WrapResult :=
  let explainText := "EXPLAIN " ++ text
  match orig explainText params with
  | .error e =>
    { result := .error e
      events := [.estimationCall explainText params,
                 .errLog ("Query error: " ++ e.msg) text "QUERY_ERROR"]
      complexity := []
      restored := true }
  | .ok explainResult =>
    match explainResult.rows.head? with
    | none =>
      let e := JsErr.typeError "Cannot read properties of undefined"
      { result := .error e
        events := [.estimationCall explainText params,
                   .errLog ("Query error: " ++ e.msg) text "QUERY_ERROR"]
        complexity := []
        restored := true }
    | some row0 =>
      let queryCost := queryCostOfPlan (planOfRow row0)
      match orig text params with
      | .error e =>
        { result := .error e
          events := [.estimationCall explainText params, .realCall text params,
                     .errLog ("Query error: " ++ e.msg) text "QUERY_ERROR"]
          complexity := []
          restored := true }
      | .ok result =>
        let duration := tEnd - tStart
        { result := .ok result
          events := [.estimationCall explainText params, .realCall text params,
                     .dbLog ("Executed query: " ++ text) duration queryCost
                       result.rowCount params.length]
          complexity := [(text, (queryCost, duration))]
          restored := true }

/-! ### The shared `pool.query` slot across a request
(`server.js` lines 82–124)

`logQueryComplexity` runs before every route handler: it captures the
current `pool.query` value as `originalQuery` and overwrites the shared
slot with a wrapper closed over that capture.  The wrapper's `finally`
assigns the captured value back — but only when the wrapper is actually
invoked.  `QueryFn` is the value stored in the slot: the pristine pg
capability, or a wrapper over a captured value. -/

/-- A value the shared `pool.query` slot can hold. -/
inductive QueryFn
  | original
  | wrapper (inner : QueryFn)
deriving DecidableEq, Repr

/-- Whether a slot value is an interception wrapper. -/
def QueryFn.isWrapper : QueryFn → Bool
  | .original => false
  | .wrapper _ => true

/-- Calling a capability value `f` while the shared slot holds `slot`,
returning the slot's value afterwards.  Calling the pristine capability
leaves the slot alone.  Calling a wrapper runs its captured inner
capability twice (the `EXPLAIN` call, then the real call) — each such
inner call may itself mutate the slot — and then its `finally` assigns
the captured inner value to the slot (line 117). -/
def callFn : QueryFn → QueryFn → QueryFn
  | .original, slot => slot
  | .wrapper inner, slot =>
    let s1 := callFn inner slot
    let _s2 := callFn inner s1
    inner

/-- A handler issuing `n` queries in sequence: each query reads the
current slot value and calls it. -/
def runQueries : ℕ → QueryFn → QueryFn
  | 0, slot => slot
  | n + 1, slot => runQueries n (callFn slot slot)

/-- As `runQueries`, also recording for each of the `n` queries whether
the capability value it invoked was an interception wrapper (that is,
whether that query ran instrumented). -/
def runQueriesTrace : ℕ → QueryFn → QueryFn × List Bool
  | 0, slot => (slot, [])
  | n + 1, slot =>
    let r := runQueriesTrace n (callFn slot slot)
    (r.1, slot.isWrapper :: r.2)

/-- One whole request against the shared slot: the `logQueryComplexity`
middleware captures the current slot value and installs a wrapper over
it, then the handler issues its `n` queries. -/
def runRequest (n : ℕ) (slot : QueryFn) : QueryFn :=
  runQueries n (.wrapper slot)

/-! ### Access-log middleware with latency injection
(`server.js` lines 52–79) -/

/-- The injected delay: `Math.floor(Math.random() * 91) + 10`, for a
random draw `r` drawn from `[0, 1)`. -/
def networkLatency (r : ℚ) : ℤ := ⌊(91 : ℚ) * r⌋ + 10

/-- The metrics the access-log entry carries. -/
structure AccessEntry where
  responseTimeMs : ℤ
  requestSizeBytes : ℕ
  networkLatencyMs : ℤ
deriving DecidableEq, Repr

/-- The access-log entries the middleware emits for one completed
response: the single `finish` listener it registers fires once, logging
one line whose `response_time_ms` is the finish-time reading minus the
start-time reading and whose `network_latency_ms` is the injected delay
(lines 60–76). -/
def accessLogEntries (r : ℚ) (tStart tFinish : ℤ) (reqSize : ℕ) : List AccessEntry :=
  [⟨tFinish - tStart, reqSize, networkLatency r⟩]

/-! ### The `/api/compute` handler (`server.js` lines 209–257)

The handler is synchronous.  Its `try` block declares
`const start = Date.now()` (line 211); `const` is block-scoped, so
`start` is visible only inside the `try` block.  The `catch` block's own
scope declares `err`, `duration`, `cpuUsage` (lines 238–243); the
enclosing handler function scope declares only the parameters `req` and
`res`; the module scope declares the requires and top-level consts.  The
`catch` block evaluates `Date.now() - start` (line 242), an identifier
lookup along exactly that scope chain. -/

/-- Names `const`-declared inside the `catch` block of `/api/compute`
(the caught binding `err` plus lines 242–243). -/
def computeCatchScopeVars : List String := ["err", "duration", "cpuUsage"]

/-- Names in the `/api/compute` handler function's own scope: just its
parameters (every other binding in the handler is inside the `try` or
`catch` block). -/
def computeHandlerScopeVars : List String := ["req", "res"]

/-- Names bound at module scope of `server.js` (lines 1–25 and the
top-level declarations that follow). -/
def moduleScopeVars : List String :=
  ["express", "winston", "Pool", "generateUsers", "generateOrders", "promClient",
   "process", "app", "collectDefaultMetrics", "httpRequestDuration", "errorCounter",
   "logger", "pool", "logQueryComplexity", "waitForPostgres"]

/-- Identifier resolution along a scope chain. -/
def varInScope (scopes : List (List String)) (x : String) : Bool :=
  scopes.any (fun s => s.contains x)

/-- An HTTP response body as the handlers produce them. -/
inductive RespBody
  | jsonResult
  | jsonRows
  | jsonError (msg : String)
  | jsonErrorDetails (msg : String) (details : String)
  | htmlErrorPage
deriving DecidableEq, Repr

/-- An HTTP response: status code and body. -/
structure HttpResponse where
  status : ℕ
  body : RespBody
deriving DecidableEq, Repr

/-- What one run of the `/api/compute` handler produces. -/
structure ComputeOutcome where
  errorCount : ℕ
  logs : List LogCall
  response : Option HttpResponse
  escaped : Option JsErr
deriving DecidableEq, Repr

/-- The app-sink log emitted at the top of the `try` block (line 212). -/
def computeStartLog : LogCall :=
  ⟨.info, "Starting heavy computation", some "logs/app.log"⟩

/-- The success-path app-sink log (line 228; the numeric suffix of the
message, the random loop sum, is elided). -/
def computeDoneLog : LogCall :=
  ⟨.info, "Computation completed", some "logs/app.log"⟩

/-- The `/api/compute` handler for one request, where `r` is the
`Math.random()` draw of line 222 compared against 0.8.  On the failure
branch the `catch` block increments the error counter (line 239) and then
evaluates `Date.now() - start` (line 242): if `start` resolved in the
catch block's scope chain the handler would log the compute error and
answer `500 {error, details}`; since it does not, a `ReferenceError`
is thrown out of the `catch` block and escapes the handler. -/
def computeHandler (r : ℚ) : ComputeOutcome :=
  if r < 4/5 then
    -- line 224 throws; control enters the catch block
    if varInScope [computeCatchScopeVars, computeHandlerScopeVars, moduleScopeVars]
        "start" then
      { errorCount := 1
        logs := [computeStartLog,
                 ⟨.error, "Compute error: Computation overload due to excessive resource demand", none⟩]
        response := some ⟨500, .jsonErrorDetails "Computation failed"
          "Computation overload due to excessive resource demand"⟩
        escaped := none }
    else
      { errorCount := 1
        logs := [computeStartLog]
        response := none
        escaped := some (.referenceError "start") }
  else
    { errorCount := 0
      logs := [computeStartLog, computeDoneLog]
      response := some ⟨200, .jsonResult⟩
      escaped := none }

/-- Express's handling of a synchronous handler: an exception thrown out
of the handler is caught by the framework and answered by the default
error handler with a 500 text/html error page, not by the handler's own
JSON error response. -/
def expressComputeResponse (r : ℚ) : HttpResponse :=
  match (computeHandler r).escaped with
  | some _ => ⟨500, .htmlErrorPage⟩
  | none => ((computeHandler r).response).getD ⟨500, .htmlErrorPage⟩

/-! ### The `/api/users/filter` handler (`server.js` lines 181–206) -/

/-- JS truthiness of `req.query.age`: `undefined` (absent) and the empty
string are falsy, every other string is truthy. -/
def jsTruthyStr : Option String → Bool
  | none => false
  | some s => s != ""

/-- The parameterised query text of the filter handler (line 186). -/
def filterQueryText : String := "SELECT * FROM users WHERE age > $1"

/-- What one run of the `/api/users/filter` handler produces. -/
structure FilterOutcome where
  queries : List (String × List JSNum)
  status : ℕ
  body : RespBody
  errorCount : ℕ
  errorLog : Option (String × String)
deriving Repr

/-- The `/api/users/filter` handler for one request: `age` is the query
parameter (absent when `none`), `r` the `Math.random()` draw of line 188,
`db` the behaviour of the query capability.  Line 184 throws when `age`
is falsy, before any query; otherwise the query runs with
`parseInt(age)`; then a draw below 0.3 throws the synthetic failure; the
`catch` block increments the error counter, logs a `FILTER_ERROR` entry
and answers `500` with the error's message. -/
def filterHandler (age : Option String) (r : ℚ)
    (db : List JSNum → Except JsErr QueryResult) : FilterOutcome :=
  if jsTruthyStr age = false then
    { queries := []
      status := 500
      body := .jsonError "Age query parameter is required"
      errorCount := 1
      errorLog := some ("Filter error: Age query parameter is required", "FILTER_ERROR") }
  else
    let a := age.getD ""
    let p := jsParseInt a
    match db [p] with
    | .error e =>
      { queries := [(filterQueryText, [p])]
        status := 500
        body := .jsonError e.msg
        errorCount := 1
        errorLog := some ("Filter error: " ++ e.msg, "FILTER_ERROR") }
    | .ok _result =>
      if r < 3/10 then
        { queries := [(filterQueryText, [p])]
          status := 500
          body := .jsonError "Random server failure"
          errorCount := 1
          errorLog := some ("Filter error: Random server failure", "FILTER_ERROR") }
      else
        { queries := [(filterQueryText, [p])]
          status := 200
          body := .jsonRows
          errorCount := 0
          errorLog := none }

/-! ### The startup readiness gate (`server.js` lines 266–279)

`waitForPostgres` runs `let retries = 10; while (retries) { ... }`: each
iteration issues the liveness query `SELECT NOW()`; on success it prints
`Connected to Postgres` and breaks; on failure the `catch` prints
`Waiting for Postgres...`, decrements `retries` and sleeps 5000 ms.  The
outcome of the k-th issued liveness query (0-based) is `outcome k`. -/

/-- The liveness query text (line 270). -/
def livenessQuery : String := "SELECT NOW()"

/-- State accumulated by the readiness loop: liveness queries issued so
far, whether connection was observed, console lines printed, and the
sleep durations taken (milliseconds). -/
structure WaitState where
  queries : ℕ
  connected : Bool
  logs : List String
  sleeps : List ℕ
deriving DecidableEq, Repr

/-- The `while (retries)` loop, with `fuel` the current value of
`retries` (it is decremented only on failure; success breaks out). -/
def waitLoop (outcome : ℕ → Except JsErr QueryResult) :
    ℕ → WaitState → WaitState
  | 0, st => st
  | fuel + 1, st =>
    match outcome st.queries with
    | .ok _ =>
      { st with
        queries := st.queries + 1
        connected := true
        logs := st.logs ++ ["Connected to Postgres"] }
    | .error _ =>
      waitLoop outcome fuel
        { st with
          queries := st.queries + 1
          logs := st.logs ++ ["Waiting for Postgres..."]
          sleeps := st.sleeps ++ [5000] }

/-- `waitForPostgres`: the loop started with `retries = 10` and a fresh
state.  Every statement of its body sits inside the `try`/`catch`, so the
function always returns normally; the `Except` result makes that
explicit. -/
def waitForPostgres (outcome : ℕ → Except JsErr QueryResult) :
    Except JsErr WaitState :=
  .ok (waitLoop outcome 10 ⟨0, false, [], []⟩)

/-- `Bool` test for a successful query result. -/
def queryOk : Except JsErr QueryResult → Bool
  | .ok _ => true
  | .error _ => false

/-- A concrete `EXPLAIN` result row carrying `examplePlan`. -/
def exampleExplainRow : List (String × String) := [("QUERY PLAN", examplePlan)]

/-- A concrete original capability for evaluating the wrapper: the
`EXPLAIN` variant answers with `examplePlan`, the real query with one
user row. -/
def exampleOrig (text : String) (_ : List JSNum) : Except JsErr QueryResult :=
  if text = "EXPLAIN SELECT * FROM users" then .ok ⟨[exampleExplainRow], 1⟩
  else .ok ⟨[[("id", "1"), ("name", "User 1")]], 1⟩

/-- A concrete original capability whose every call fails. -/
def failingOrig (_ : String) (_ : List JSNum) : Except JsErr QueryResult :=
  .error (.error "connection refused")

/-- A concrete liveness-outcome sequence: the first three attempts fail,
the fourth succeeds. -/
def flakyOutcome (n : ℕ) : Except JsErr QueryResult :=
  if n < 3 then .error (.error "ECONNREFUSED")
  else .ok ⟨[[("now", "2026-10-11")]], 1⟩

/-! ## Helper lemmas -/

/-- On the example plan the source's regex captures only the final digit
`0` of the total cost `35.50`, so the attached cost is 0. -/
theorem queryCostOfPlan_examplePlan : queryCostOfPlan examplePlan = .val 0 := by
  have h1 : jsMatchCost examplePlan = some "0" := by decide
  have h2 : jsParseFloatParts "0" = some (false, (0, 0)) := by decide
  unfold queryCostOfPlan jsParseFloatNum
  rw [h1]
  simp [h2, decToRat]

/-- The maximum cost figure the example plan reports is 35.50. -/
theorem specMaxCostFigure_examplePlan :
    specMaxCostFigure examplePlan = some (71 / 2) := by
  have h : specMaxCostSearch examplePlan.data = some (3550, 2) := by decide
  unfold specMaxCostFigure
  rw [h]
  simp [decToRat]
  norm_num

/-- Queries issued while the slot holds the pristine capability leave the
slot pristine. -/
theorem runQueries_original (m : ℕ) : runQueries m .original = .original := by
  induction m with
  | zero => rfl
  | succ n ih => exact ih

/-- Trace version: all such queries run uninstrumented. -/
theorem runQueriesTrace_original (m : ℕ) :
    runQueriesTrace m .original = (.original, List.replicate m false) := by
  induction m with
  | zero => rfl
  | succ n ih => simp [runQueriesTrace, callFn, ih, QueryFn.isWrapper, List.replicate_succ]

/-! ## Claim theorems -/

/-- C1 — the claim fails on the code.  On the `/api/compute` failure path
(draw 1/2 < 0.8) the `catch` block increments the error counter but then
evaluates `Date.now() - start` with `start` out of scope (it is
`const`-declared inside the `try` block), so a `ReferenceError` escapes
the handler before the error log and the `500 {error, details}` JSON
response: Express's default error handler answers with an HTML error
page instead, and the failure escapes the handler as an unhandled
fault. -/
theorem compute_failure_escapes_handler :
    computeHandler (1/2) =
      { errorCount := 1
        logs := [computeStartLog]
        response := none
        escaped := some (.referenceError "start") } ∧
    expressComputeResponse (1/2) = ⟨500, .htmlErrorPage⟩ ∧
    (expressComputeResponse (1/2)).body ≠
      .jsonErrorDetails "Computation failed"
        "Computation overload due to excessive resource demand" := by
  have hr : (1/2 : ℚ) < 4/5 := by norm_num
  have hs : varInScope [computeCatchScopeVars, computeHandlerScopeVars, moduleScopeVars]
      "start" = false := by decide
  have hmain : computeHandler (1/2) =
      { errorCount := 1
        logs := [computeStartLog]
        response := none
        escaped := some (.referenceError "start") } := by
    unfold computeHandler
    rw [if_pos hr]
    simp [hs]
  have hresp : expressComputeResponse (1/2) = ⟨500, .htmlErrorPage⟩ := by
    unfold expressComputeResponse
    rw [hmain]
  exact ⟨hmain, hresp, by rw [hresp]; decide⟩

/-- C2 counterexample — a request whose handler issues zero queries never
invokes the wrapper, so the wrapper's `finally` never runs and the shared
`pool.query` slot still holds the wrapper when the handler completes: the
next unrelated request does not see the original capability. -/
theorem zero_query_request_leaves_wrapper :
    runRequest 0 .original = .wrapper .original ∧
    QueryFn.wrapper .original ≠ QueryFn.original := by
  exact ⟨rfl, by decide⟩

/-- C2 amended — the shared query capability is restored to its original
form before the handler completes exactly when the handler issues at
least one query; a zero-query handler leaves the wrapper installed. -/
theorem pool_query_restored_iff_handler_queried (n : ℕ) :
    runRequest n .original =
      if n = 0 then .wrapper .original else .original := by
  cases n with
  | zero => rfl
  | succ m => simpa [runRequest, runQueries, callFn] using runQueries_original m

/-- C2 witness — a one-query request restores the original capability. -/
theorem pool_query_restored_witness :
    runRequest 1 .original = if 1 = 0 then .wrapper .original else .original :=
  pool_query_restored_iff_handler_queried 1

/-- C3 — in a request issuing `n ≥ 2` queries, only the first invocation
goes through the interception wrapper; completing that first invocation
resets the slot to the captured original, and the remaining `n - 1`
queries run uninstrumented. -/
theorem first_query_only_instrumented (n : ℕ) (h : 2 ≤ n) :
    (runQueriesTrace n (.wrapper .original)).2 =
      true :: List.replicate (n - 1) false ∧
    (runQueriesTrace n (.wrapper .original)).1 = .original ∧
    callFn (.wrapper .original) (.wrapper .original) = .original := by
  obtain ⟨m, rfl⟩ : ∃ m, n = m + 1 := ⟨n - 1, by omega⟩
  refine ⟨?_, ?_, rfl⟩
  · simp [runQueriesTrace, callFn, runQueriesTrace_original, QueryFn.isWrapper]
  · simp [runQueriesTrace, callFn, runQueriesTrace_original]

/-- C3 witness — at `n = 3` the trace is instrumented, then twice
uninstrumented. -/
theorem first_query_only_instrumented_witness :
    2 ≤ 3 ∧
    ((runQueriesTrace 3 (.wrapper .original)).2 =
        true :: List.replicate (3 - 1) false ∧
      (runQueriesTrace 3 (.wrapper .original)).1 = .original ∧
      callFn (.wrapper .original) (.wrapper .original) = .original) :=
  ⟨by norm_num, first_query_only_instrumented 3 (by norm_num)⟩

/-- C4 — the claim's ordering part holds (estimation call, then real
call, then db-sink emission), but the attached cost is not the maximum
cost figure parsed from the estimation result: on a plan reporting
`cost=0.00..35.50` the regex `cost=[\d.]+..([\d.]+)` (unescaped dots)
backtracks to capture only the final digit `0`, so the code attaches
cost 0 while the maximum cost figure present and parsable is 35.50. -/
theorem cost_extraction_attaches_wrong_figure :
    (instrumentedCall exampleOrig 0 7 "SELECT * FROM users" []).events =
      [.estimationCall "EXPLAIN SELECT * FROM users" [],
       .realCall "SELECT * FROM users" [],
       .dbLog "Executed query: SELECT * FROM users" 7
         (queryCostOfPlan examplePlan) 1 0] ∧
    queryCostOfPlan examplePlan = .val 0 ∧
    specMaxCostFigure examplePlan = some (71 / 2) ∧
    JSNum.val (71 / 2) ≠ JSNum.val 0 := by
  refine ⟨rfl, queryCostOfPlan_examplePlan, specMaxCostFigure_examplePlan, ?_⟩
  simp only [ne_eq, JSNum.val.injEq]
  norm_num

/-- C5 counterexample — the db-sink emission carries the explicit sink
selection `logs/db.log`, yet winston appends it to the access and app
sinks' destinations (and the console) as well: an entry addressed to one
sink is appended to the other sinks' destinations. -/
theorem db_entry_appended_to_other_sinks :
    dbLogCall.transportField = some "logs/db.log" ∧
    "logs/access.log" ∈ routedDests dbLogCall ∧
    "logs/app.log" ∈ routedDests dbLogCall ∧
    "console" ∈ routedDests dbLogCall := by
  decide

/-- C5 amended — routing is determined solely by the entry's level
against each transport's threshold: an info entry is appended to the
access, db and app sinks and the console; an error entry to all four file
sinks and the console; the explicit sink-selection field is carried as
metadata only and has no effect on routing. -/
theorem routing_determined_by_level_only (e : LogCall) (sel : Option String) :
    routedDests e =
      (if e.level = .error then
        ["logs/access.log", "logs/error.log", "logs/db.log", "logs/app.log", "console"]
      else
        ["logs/access.log", "logs/db.log", "logs/app.log", "console"]) ∧
    routedDests { e with transportField := sel } = routedDests e := by
  obtain ⟨lv, msg, tf⟩ := e
  cases lv <;> exact ⟨rfl, rfl⟩

/-- C5 witness — the db-addressed info entry is routed to exactly the
four info destinations, independently of its selection field. -/
theorem routing_determined_by_level_only_witness :
    routedDests dbLogCall =
      (if dbLogCall.level = .error then
        ["logs/access.log", "logs/error.log", "logs/db.log", "logs/app.log", "console"]
      else
        ["logs/access.log", "logs/db.log", "logs/app.log", "console"]) ∧
    routedDests { dbLogCall with transportField := some "logs/access.log" } =
      routedDests dbLogCall :=
  routing_determined_by_level_only dbLogCall (some "logs/access.log")

/-- C8 — a `/api/users/filter` request without the `age` parameter throws
the validation error before any query: the handler answers
`500 {error}` with the validation message, increments the error counter,
logs a `FILTER_ERROR` entry, and the query capability is never
invoked. -/
theorem missing_age_fails_validation_without_db (r : ℚ)
    (db : List JSNum → Except JsErr QueryResult) :
    (filterHandler none r db).queries = [] ∧
    (filterHandler none r db).status = 500 ∧
    (filterHandler none r db).body = .jsonError "Age query parameter is required" ∧
    (filterHandler none r db).errorCount = 1 ∧
    (filterHandler none r db).errorLog =
      some ("Filter error: Age query parameter is required", "FILTER_ERROR") :=
  ⟨rfl, rfl, rfl, rfl, rfl⟩

/-- C8 witness — concrete run with a healthy database. -/
theorem missing_age_fails_validation_witness :
    (filterHandler none 0 (fun _ => .ok ⟨[], 0⟩)).queries = [] ∧
    (filterHandler none 0 (fun _ => .ok ⟨[], 0⟩)).status = 500 ∧
    (filterHandler none 0 (fun _ => .ok ⟨[], 0⟩)).body =
      .jsonError "Age query parameter is required" ∧
    (filterHandler none 0 (fun _ => .ok ⟨[], 0⟩)).errorCount = 1 ∧
    (filterHandler none 0 (fun _ => .ok ⟨[], 0⟩)).errorLog =
      some ("Filter error: Age query parameter is required", "FILTER_ERROR") :=
  missing_age_fails_validation_without_db 0 (fun _ => .ok ⟨[], 0⟩)

/-- Readiness-loop characterisation: if the first `k` liveness queries
issued from state `st` fail and (when the budget `f` allows a further
attempt) the `k`-th succeeds, the loop issues `k + 1` queries (capped by
the budget), connects exactly when a success fits in the budget, prints
one waiting line and sleeps 5000 ms per failure. -/
theorem waitLoop_char (outcome : ℕ → Except JsErr QueryResult) :
    ∀ (k f : ℕ) (st : WaitState), k ≤ f →
    (∀ j, j < k → queryOk (outcome (st.queries + j)) = false) →
    (k < f → queryOk (outcome (st.queries + k)) = true) →
    waitLoop outcome f st =
      { queries := st.queries + (if k < f then k + 1 else k)
        connected := if k < f then true else st.connected
        logs := st.logs ++ List.replicate k "Waiting for Postgres..."
          ++ (if k < f then ["Connected to Postgres"] else [])
        sleeps := st.sleeps ++ List.replicate k 5000 } := by
  intro k
  induction k with
  | zero =>
    intro f st hk hfail hsucc
    cases f with
    | zero => simp [waitLoop]
    | succ f' =>
      have h0 : queryOk (outcome st.queries) = true := by
        simpa using hsucc (Nat.succ_pos f')
      cases ho : outcome st.queries with
      | ok v => simp [waitLoop, ho]
      | error e => rw [ho] at h0; simp [queryOk] at h0
  | succ k' ih =>
    intro f st hk hfail hsucc
    cases f with
    | zero => omega
    | succ f' =>
      have h0 : queryOk (outcome st.queries) = false := by
        simpa using hfail 0 (Nat.succ_pos k')
      cases ho : outcome st.queries with
      | ok v => rw [ho] at h0; simp [queryOk] at h0
      | error e =>
        have step : waitLoop outcome (f' + 1) st = waitLoop outcome f'
            { st with
              queries := st.queries + 1
              logs := st.logs ++ ["Waiting for Postgres..."]
              sleeps := st.sleeps ++ [5000] } := by
          simp [waitLoop, ho]
        have hf2 : ∀ j, j < k' →
            queryOk (outcome (st.queries + 1 + j)) = false := by
          intro j hj
          have e1 : st.queries + 1 + j = st.queries + (j + 1) := by omega
          rw [e1]
          exact hfail (j + 1) (by omega)
        have hs2 : k' < f' → queryOk (outcome (st.queries + 1 + k')) = true := by
          intro hlt
          have e1 : st.queries + 1 + k' = st.queries + (k' + 1) := by omega
          rw [e1]
          exact hsucc (by omega)
        rw [step, ih f' _ (by omega) hf2 hs2]
        congr 1
        · dsimp only
          split_ifs <;> omega
        · dsimp only
          split_ifs with a b <;> first | rfl | omega
        · dsimp only
          simp only [Nat.succ_lt_succ_iff, List.replicate_succ, List.append_assoc,
            List.singleton_append, List.cons_append, List.nil_append]
        · dsimp only
          simp only [List.replicate_succ, List.append_assoc, List.singleton_append,
            List.cons_append, List.nil_append]

/-- C6 — when the estimation call fails, or the estimation call succeeds
(with a non-empty result) and the real call fails, the wrapper emits an
error-sink entry tagged `QUERY_ERROR` and rethrows the same failure to
its caller. -/
theorem query_error_logged_and_rethrown
    (orig : String → List JSNum → Except JsErr QueryResult)
    (tStart tEnd : ℤ) (text : String) (params : List JSNum) (e : JsErr)
    (h : orig ("EXPLAIN " ++ text) params = .error e ∨
         ∃ expl, orig ("EXPLAIN " ++ text) params = .ok expl ∧ expl.rows ≠ [] ∧
           orig text params = .error e) :
    (instrumentedCall orig tStart tEnd text params).result = .error e ∧
    WEvent.errLog ("Query error: " ++ e.msg) text "QUERY_ERROR" ∈
      (instrumentedCall orig tStart tEnd text params).events := by
  rcases h with h | ⟨expl, h1, h2, h3⟩
  · constructor
    · simp [instrumentedCall, h]
    · simp [instrumentedCall, h]
  · obtain ⟨r0, rs, hrows⟩ := List.exists_cons_of_ne_nil h2
    constructor
    · simp [instrumentedCall, h1, hrows, h3]
    · simp [instrumentedCall, h1, hrows, h3]

/-- C6 witness — a wrapper invocation over an always-failing capability
rethrows the estimation failure having logged `QUERY_ERROR`. -/
theorem query_error_logged_witness :
    (instrumentedCall failingOrig 0 0 "SELECT 1" []).result =
      .error (.error "connection refused") ∧
    WEvent.errLog ("Query error: " ++ JsErr.msg (.error "connection refused"))
        "SELECT 1" "QUERY_ERROR" ∈
      (instrumentedCall failingOrig 0 0 "SELECT 1" []).events :=
  query_error_logged_and_rethrown failingOrig 0 0 "SELECT 1" []
    (.error "connection refused") (Or.inl rfl)

/-- C7 — for each completed response the middleware emits exactly one
access-log entry; its `response_time_ms` is non-negative whenever the
finish-time reading is at least the start-time reading, and its
`network_latency_ms` is the injected delay `⌊91·r⌋ + 10`, which for any
draw `r ∈ [0, 1)` lies in `[10, 100]`. -/
theorem access_log_single_entry_latency_bounds (r : ℚ) (t0 t1 : ℤ) (sz : ℕ)
    (h0 : 0 ≤ r) (h1 : r < 1) (ht : t0 ≤ t1) :
    (accessLogEntries r t0 t1 sz).length = 1 ∧
    accessLogEntries r t0 t1 sz = [⟨t1 - t0, sz, networkLatency r⟩] ∧
    0 ≤ t1 - t0 ∧
    networkLatency r = ⌊(91 : ℚ) * r⌋ + 10 ∧
    10 ≤ networkLatency r ∧ networkLatency r ≤ 100 := by
  have hge : (0 : ℤ) ≤ ⌊(91 : ℚ) * r⌋ :=
    Int.floor_nonneg.mpr (mul_nonneg (by norm_num) h0)
  have hlt : ⌊(91 : ℚ) * r⌋ < 91 := by
    apply Int.floor_lt.mpr
    push_cast
    linarith
  refine ⟨rfl, rfl, by omega, rfl, ?_, ?_⟩ <;> unfold networkLatency <;> omega

/-- C7 witness — a concrete request with draw 0 and a 3 ms response. -/
theorem access_log_witness :
    (accessLogEntries 0 0 3 0).length = 1 ∧
    accessLogEntries 0 0 3 0 = [⟨3 - 0, 0, networkLatency 0⟩] ∧
    (0 : ℤ) ≤ 3 - 0 ∧
    networkLatency 0 = ⌊(91 : ℚ) * 0⌋ + 10 ∧
    10 ≤ networkLatency 0 ∧ networkLatency 0 ≤ 100 :=
  access_log_single_entry_latency_bounds 0 0 3 0 (le_refl 0) (by norm_num) (by norm_num)

/-- C9 — the readiness gate issues at most 10 liveness queries; with the
first `k` attempts failing and (if `k < 10`) attempt `k` succeeding, it
returns right after the first success having issued `k + 1` queries, or
after all 10 failures; each failure prints a waiting line and sleeps
5000 ms; in every case the function returns normally (`.ok`) and startup
proceeds. -/
theorem readiness_gate_budget_and_return (outcome : ℕ → Except JsErr QueryResult)
    (k : ℕ) (hk : k ≤ 10)
    (hfail : ∀ j, j < k → queryOk (outcome j) = false)
    (hsucc : k < 10 → queryOk (outcome k) = true) :
    waitForPostgres outcome = .ok (waitLoop outcome 10 ⟨0, false, [], []⟩) ∧
    (waitLoop outcome 10 ⟨0, false, [], []⟩).queries =
      (if k < 10 then k + 1 else 10) ∧
    (waitLoop outcome 10 ⟨0, false, [], []⟩).queries ≤ 10 ∧
    (waitLoop outcome 10 ⟨0, false, [], []⟩).connected =
      (if k < 10 then true else false) ∧
    (waitLoop outcome 10 ⟨0, false, [], []⟩).logs =
      List.replicate k "Waiting for Postgres..."
        ++ (if k < 10 then ["Connected to Postgres"] else []) ∧
    (waitLoop outcome 10 ⟨0, false, [], []⟩).sleeps = List.replicate k 5000 := by
  have hf : ∀ j, j < k →
      queryOk (outcome ((⟨0, false, [], []⟩ : WaitState).queries + j)) = false := by
    intro j hj
    simpa using hfail j hj
  have hs : k < 10 →
      queryOk (outcome ((⟨0, false, [], []⟩ : WaitState).queries + k)) = true := by
    intro hlt
    simpa using hsucc hlt
  have hc := waitLoop_char outcome k 10 ⟨0, false, [], []⟩ hk hf hs
  have hq : (waitLoop outcome 10 ⟨0, false, [], []⟩).queries =
      (if k < 10 then k + 1 else k) := by simp [hc]
  have hco : (waitLoop outcome 10 ⟨0, false, [], []⟩).connected =
      (if k < 10 then true else false) := by simp [hc]
  have hl : (waitLoop outcome 10 ⟨0, false, [], []⟩).logs =
      List.replicate k "Waiting for Postgres..."
        ++ (if k < 10 then ["Connected to Postgres"] else []) := by simp [hc]
  have hsl : (waitLoop outcome 10 ⟨0, false, [], []⟩).sleeps =
      List.replicate k 5000 := by simp [hc]
  refine ⟨rfl, ?_, ?_, ?_, hl, hsl⟩
  · rw [hq]
    split_ifs <;> omega
  · rw [hq]
    split_ifs <;> omega
  · rw [hco]

/-- C9 witness — three failures then a success: four queries issued,
connected, three waits of 5000 ms. -/
theorem readiness_gate_witness :
    waitForPostgres flakyOutcome = .ok (waitLoop flakyOutcome 10 ⟨0, false, [], []⟩) ∧
    (waitLoop flakyOutcome 10 ⟨0, false, [], []⟩).queries =
      (if 3 < 10 then 3 + 1 else 10) ∧
    (waitLoop flakyOutcome 10 ⟨0, false, [], []⟩).queries ≤ 10 ∧
    (waitLoop flakyOutcome 10 ⟨0, false, [], []⟩).connected =
      (if 3 < 10 then true else false) ∧
    (waitLoop flakyOutcome 10 ⟨0, false, [], []⟩).logs =
      List.replicate 3 "Waiting for Postgres..."
        ++ (if 3 < 10 then ["Connected to Postgres"] else []) ∧
    (waitLoop flakyOutcome 10 ⟨0, false, [], []⟩).sleeps = List.replicate 3 5000 :=
  readiness_gate_budget_and_return flakyOutcome 3 (by norm_num)
    (fun j hj => by simp [flakyOutcome, hj, queryOk])
    (fun _ => by simp [flakyOutcome, queryOk])

/-- C10 — a present but non-numeric `age` is truthy, so the validation of
line 184 does not trigger; the handler invokes the query capability with
`parseInt(age) = NaN` as the comparison parameter, so the non-numeric age
reaches the database. -/
theorem nonnumeric_age_reaches_db_as_nan (s : String) (r : ℚ)
    (db : List JSNum → Except JsErr QueryResult)
    (hs : jsTruthyStr (some s) = true) (hn : jsParseInt s = .nan) :
    (filterHandler (some s) r db).queries = [(filterQueryText, [JSNum.nan])] := by
  have hcond : ¬ jsTruthyStr (some s) = false := by rw [hs]; simp
  unfold filterHandler
  rw [if_neg hcond]
  simp only [Option.getD, hn]
  cases hdb : db [JSNum.nan] with
  | error e => simp [hdb]
  | ok v =>
    simp only [hdb]
    split_ifs <;> rfl

/-- C10 witness — `age=abc` reaches the database as `NaN`. -/
theorem nonnumeric_age_witness :
    (filterHandler (some "abc") 0 (fun _ => .ok ⟨[], 0⟩)).queries =
      [(filterQueryText, [JSNum.nan])] :=
  nonnumeric_age_reaches_db_as_nan "abc" 0 (fun _ => .ok ⟨[], 0⟩)
    (by decide) (by decide)
